import Mathlib

/-!
# Verification of the PX8 SDL front-end (`src/frontend/mod.rs`)

Shallow embedding of the front-end of the PX8 fantasy-console runtime:
the frame clock (`FrameTimes`), the pure input maps (`map_keycode`,
`map_button`, `map_axis`), and the event-handling loop of
`SdlFrontend::run_cartridge`.

Modelling conventions:
* `Instant` and `Duration` are nanosecond counts (`Nat`); `Instant`
  subtraction is truncated subtraction (the platform clock is monotone).
* `i16` axis values are `Int`; theorems carry the `[-32768, 32767]`
  range where it matters.  `i32` mouse arithmetic is `Int` with
  truncating division (`Int.tdiv`), matching Rust `/` on `i32`.
* `f64` timestamps are only stored, never computed with, so they are
  modelled as `Rat`.
* `config::Players` and the `px8` engine are not part of this source
  tree; the definitions that stand for them are marked
  `Modelled from the spec:` and follow the specification text.
-/

/-- The canonical console key space (`PX8Key` in the source). -/
inductive PX8Key
  | Right
  | Left
  | Up
  | Down
  | O
  | X
  | Pause
  | Enter
deriving DecidableEq, Repr

/-- SDL game-controller axes (`sdl2::controller::Axis`). -/
inductive Axis
  | LeftX
  | LeftY
  | RightX
  | RightY
  | TriggerLeft
  | TriggerRight
deriving DecidableEq, Repr

/-- SDL game-controller digital buttons (`sdl2::controller::Button`);
`Other` stands for the variants the front-end never matches. -/
inductive Button
  | A
  | B
  | DPadUp
  | DPadDown
  | DPadLeft
  | DPadRight
  | Other
deriving DecidableEq, Repr

/-- SDL keyboard keycodes (`sdl2::keyboard::Keycode`): the constructors
the front-end matches on, plus `Other n` for every remaining keycode. -/
inductive Keycode
  | Right
  | Left
  | Up
  | Down
  | Z
  | C
  | N
  | X
  | V
  | M
  | F
  | S
  | E
  | D
  | LShift
  | Tab
  | A
  | Q
  | P
  | KpEnter
  | Escape
  | F2
  | F3
  | F4
  | F5
  | F6
  | Other (code : Nat)
deriving DecidableEq, Repr

/-- `map_keycode` (src/frontend/mod.rs:540-569): fixed keyboard table,
returns the console key (if any) and the player id (`u8`). -/
def map_keycode (key : Keycode) : Option PX8Key × Nat :=
  match key with
  | Keycode.Right => (some PX8Key.Right, 0)
  | Keycode.Left => (some PX8Key.Left, 0)
  | Keycode.Up => (some PX8Key.Up, 0)
  | Keycode.Down => (some PX8Key.Down, 0)
  | Keycode.Z => (some PX8Key.O, 0)
  | Keycode.C => (some PX8Key.O, 0)
  | Keycode.N => (some PX8Key.O, 0)
  | Keycode.X => (some PX8Key.X, 0)
  | Keycode.V => (some PX8Key.X, 0)
  | Keycode.M => (some PX8Key.X, 0)
  | Keycode.F => (some PX8Key.Right, 1)
  | Keycode.S => (some PX8Key.Left, 1)
  | Keycode.E => (some PX8Key.Up, 1)
  | Keycode.D => (some PX8Key.Down, 1)
  | Keycode.LShift => (some PX8Key.O, 1)
  | Keycode.Tab => (some PX8Key.O, 1)
  | Keycode.A => (some PX8Key.X, 1)
  | Keycode.Q => (some PX8Key.X, 1)
  | Keycode.P => (some PX8Key.Pause, 0)
  | Keycode.KpEnter => (some PX8Key.Enter, 0)
  | _ => (none, 0)

/-- `map_button` (src/frontend/mod.rs:528-538). -/
def map_button (button : Button) : Option PX8Key :=
  match button with
  | Button.DPadRight => some PX8Key.Right
  | Button.DPadLeft => some PX8Key.Left
  | Button.DPadUp => some PX8Key.Up
  | Button.DPadDown => some PX8Key.Down
  | Button.A => some PX8Key.O
  | Button.B => some PX8Key.X
  | _ => none

/-- `map_axis` (src/frontend/mod.rs:571-590): quantizes a signed 16-bit
axis value into a console key plus a strong-press flag.  The Rust
`a...b` range patterns are inclusive on both ends. -/
def map_axis (axis : Axis) (value : Int) : Option (PX8Key × Bool) :=
  match axis with
  | Axis.LeftX =>
    if -32768 ≤ value ∧ value ≤ -16384 then some (PX8Key.Left, true)
    else if -16383 ≤ value ∧ value ≤ -1 then some (PX8Key.Left, false)
    else if 0 ≤ value ∧ value ≤ 16383 then some (PX8Key.Right, false)
    else if 16384 ≤ value ∧ value ≤ 32767 then some (PX8Key.Right, true)
    else none
  | Axis.LeftY =>
    if -32768 ≤ value ∧ value ≤ -16384 then some (PX8Key.Up, true)
    else if -16383 ≤ value ∧ value ≤ -1 then some (PX8Key.Up, false)
    else if 0 ≤ value ∧ value ≤ 16383 then some (PX8Key.Down, false)
    else if 16384 ≤ value ∧ value ≤ 32767 then some (PX8Key.Down, true)
    else none
  | _ => none

/-- `FrameTimes` (src/frontend/mod.rs:31-35): the fixed-rate frame
clock.  Instants and durations are nanosecond counts. -/
structure FrameTimes where
  frame_duration : Nat
  last_time : Nat
  target_time : Nat
deriving DecidableEq, Repr

/-- `FrameTimes::new` (src/frontend/mod.rs:38-45), with `now` passed
explicitly. -/
def FrameTimes.new (frame_duration now : Nat) : FrameTimes :=
  { frame_duration := frame_duration
    last_time := now
    target_time := now + frame_duration }

/-- `FrameTimes::reset` (src/frontend/mod.rs:47-51). -/
def FrameTimes.reset (ft : FrameTimes) (now : Nat) : FrameTimes :=
  { ft with last_time := now, target_time := now + ft.frame_duration }

/-- `FrameTimes::update` (src/frontend/mod.rs:53-59): returns the new
clock state and the delta `now - last_time`; `target_time` advances by
`frame_duration`, never clamped to `now`. -/
def FrameTimes.update (ft : FrameTimes) (now : Nat) : FrameTimes × Nat :=
  ({ ft with last_time := now,
             target_time := ft.target_time + ft.frame_duration },
   now - ft.last_time)

/-- Iterate `FrameTimes.update` over a list of observation times. -/
def FrameTimes.updateMany (ft : FrameTimes) (nows : List Nat) : FrameTimes :=
  match nows with
  | [] => ft
  | now :: rest => FrameTimes.updateMany (ft.update now).1 rest

/-- Modelled from the spec: `config::Players` is not under src/.  Per
(player, key) state, spec section 4.4: a pressed flag and the press
timestamp (`f64`, stored only, modelled as `Rat`). -/
structure KeyState where
  pressed : Bool
  t_pressed : Rat
deriving DecidableEq, Repr

/-- Modelled from the spec: `config::Players`, the authoritative input
surface, as a map `(PlayerId, ConsoleKey) → KeyState`. -/
def Players := Nat → PX8Key → KeyState

/-- All keys released, timestamps zero. -/
def Players.init : Players := fun _ _ => { pressed := false, t_pressed := 0 }

/-- Modelled from the spec: `Players::key_down(player, key, is_repeat,
now)` — if not currently pressed or the event is a repeat, set
`pressed := true` and `t_pressed := now`; otherwise leave the state
unchanged (debounce). -/
def key_down (ps : Players) (player : Nat) (key : PX8Key) (rpt : Bool)
    (now : Rat) : Players :=
  fun p k =>
    if p = player ∧ k = key then
      if ¬ (ps p k).pressed ∨ rpt then { pressed := true, t_pressed := now }
      else ps p k
    else ps p k

/-- Modelled from the spec: `Players::key_up(player, key)` — set
`pressed := false`. -/
def key_up (ps : Players) (player : Nat) (key : PX8Key) : Players :=
  fun p k =>
    if p = player ∧ k = key then { ps p k with pressed := false }
    else ps p k

/-- Modelled from the spec: `Players::key_direc_hor_up(player)` — clear
both horizontal keys (Left, Right) in one step. -/
def key_direc_hor_up (ps : Players) (player : Nat) : Players :=
  key_up (key_up ps player PX8Key.Left) player PX8Key.Right

/-- Modelled from the spec: `Players::key_direc_ver_up(player)` — clear
both vertical keys (Up, Down) in one step. -/
def key_direc_ver_up (ps : Players) (player : Nat) : Players :=
  key_up (key_up ps player PX8Key.Up) player PX8Key.Down

/-- The engine slot numbering of spec section 3: `0=Left, 1=Right, 2=Up,
3=Down, 4=O, 5=X, 6=Enter, 7=Pause`. -/
def slotKey (slot : Nat) : Option PX8Key :=
  match slot with
  | 0 => some PX8Key.Left
  | 1 => some PX8Key.Right
  | 2 => some PX8Key.Up
  | 3 => some PX8Key.Down
  | 4 => some PX8Key.O
  | 5 => some PX8Key.X
  | 6 => some PX8Key.Enter
  | 7 => some PX8Key.Pause
  | _ => none

/-- Modelled from the spec: `Players::get_value_quick(player, slot)`,
returning `0` or `1` for the slot numbering above. -/
def get_value_quick (ps : Players) (player slot : Nat) : Nat :=
  match slotKey slot with
  | some k => if (ps player k).pressed then 1 else 0
  | none => 0

/-- Engine lifecycle state (`px8::PX8State`, spec section 3). -/
inductive PX8State
  | RUN
  | PAUSE
deriving DecidableEq, Repr

/-- Modelled from the spec: the engine (`px8::Px8New`) as observed by
the front-end — its RUN/PAUSE state, the recording flag read through
`is_recording()`, and the shutdown request read through `is_end()`. -/
structure Px8 where
  state : PX8State
  recording : Bool
  ended : Bool
deriving DecidableEq, Repr

/-- Modelled from the spec: `engine.pause()` — transition to PAUSE. -/
def Px8.pause (e : Px8) : Px8 := { e with state := PX8State.PAUSE }

/-- Modelled from the spec: `engine.is_recording()`. -/
def Px8.is_recording (e : Px8) : Bool := e.recording

/-- Modelled from the spec: `engine.is_end()`. -/
def Px8.is_end (e : Px8) : Bool := e.ended

/-- Modelled from the spec: `engine.start_record(path)` sets the
engine-owned recording flag. -/
def Px8.do_start_record (e : Px8) : Px8 := { e with recording := true }

/-- Modelled from the spec: `engine.stop_record(scale)` clears the
engine-owned recording flag. -/
def Px8.do_stop_record (e : Px8) : Px8 := { e with recording := false }

/-- Modelled from the spec: `engine.update_pause(enter, up, down)` —
pause-menu navigation; PAUSE → RUN happens by menu selection (enter). -/
def Px8.update_pause (e : Px8) (enter _up _down : Bool) : Px8 :=
  if enter then { e with state := PX8State.RUN } else e

/-- A local wall-clock timestamp as produced by `chrono::Local::now()`:
the six fields the front-end formats. -/
structure DateTime where
  year : Nat
  month : Nat
  day : Nat
  hour : Nat
  minute : Nat
  second : Nat
deriving DecidableEq, Repr

/-- Zero-pad to two digits (chrono `%m`, `%d`, `%H`, `%M`, `%S`). -/
def pad2 (n : Nat) : String :=
  if n < 10 then "0" ++ toString n else toString n

/-- Zero-pad to four digits (chrono `%Y`). -/
def pad4 (n : Nat) : String :=
  if n < 10 then "000" ++ toString n
  else if n < 100 then "00" ++ toString n
  else if n < 1000 then "0" ++ toString n
  else toString n

/-- chrono format string `%Y-%m-%d-%H-%M-%S` applied to a timestamp. -/
def formatTimestamp (dt : DateTime) : String :=
  pad4 dt.year ++ "-" ++ pad2 dt.month ++ "-" ++ pad2 dt.day ++ "-" ++
  pad2 dt.hour ++ "-" ++ pad2 dt.minute ++ "-" ++ pad2 dt.second

/-- The SDL events matched by the drain loop
(src/frontend/mod.rs:292-391).  Payloads the front-end only logs are
dropped; `OtherEvent` stands for the final wildcard arm. -/
inductive Event
  | Quit
  | KeyDown (keycode : Option Keycode) (rpt : Bool)
  | KeyUp (keycode : Option Keycode)
  | WindowSizeChanged
  | ControllerDeviceAdded
  | ControllerButtonDown (button : Button)
  | ControllerButtonUp (button : Button)
  | ControllerAxisMotion (axis : Axis) (value : Int)
  | JoyAxisMotion
  | JoyButtonDown
  | JoyButtonUp
  | JoyHatMotion
  | OtherEvent
deriving DecidableEq, Repr

/-- The engine operations the front-end may invoke while handling
events and ticking (spec section 4.6); recorded as a call trace. -/
inductive EngineCall
  | toggleInfoOverlay
  | screenshot (filename : String)
  | startRecord (filename : String)
  | stopRecord (scale : Nat)
  | saveCartridge (stamp : String)
  | switchCode
  | callInit
  | pauseCall
  | updatePauseCall
  | engineUpdateCall
  | callUpdate
  | callDraw
  | recordCall
deriving DecidableEq, Repr

/-- Modelled from the spec: the mouse fields `(mx, my, buttons)` of the
shared PlayersState (spec section 3); `config::Players` is not under
src/, so the shared state is modelled in `Loop` as the key map
`players` plus these mouse fields. -/
structure Mouse where
  mx : Int
  my : Int
  buttons : Nat
deriving DecidableEq, Repr

/-- The mutable state the `run_cartridge` loop body reads and writes:
the shared PlayersState (key map plus mouse fields), the engine, and
the per-frame environment (elapsed time, editor flag, scale factor,
wall clock). -/
structure Loop where
  players : Players
  mouse : Mouse := ⟨0, 0, 0⟩
  px8 : Px8
  elapsed_time : Rat
  editor : Bool
  scaleFactor : Nat
  dt : DateTime

/-- Result of a drain or a whole frame: updated state, the engine calls
made, and whether `break 'main` was requested. -/
structure StepResult where
  loop : Loop
  calls : List EngineCall
  exit : Bool

/-- What the `ControllerAxisMotion` arm does with a mapped axis value
(src/frontend/mod.rs:354-369). -/
inductive AxisAction
  | direcHorUp
  | direcVerUp
  | downAct (key : PX8Key)
  | upAct (key : PX8Key)
  | noAct
deriving DecidableEq, Repr

/-- The `ControllerAxisMotion` dispatch (src/frontend/mod.rs:354-369):
`map_axis` first, then the two center-snap sentinels `LeftX == 128` and
`LeftY == -129`, then key_down/key_up by the strong-press flag. -/
def axisMotionAction (axis : Axis) (value : Int) : AxisAction :=
  match map_axis axis value with
  | some (key, st) =>
    if axis = Axis.LeftX ∧ value = 128 then AxisAction.direcHorUp
    else if axis = Axis.LeftY ∧ value = -129 then AxisAction.direcVerUp
    else if st then AxisAction.downAct key
    else AxisAction.upAct key
  | none => AxisAction.noAct

/-- Apply an `AxisAction` to the players state: the axis arm always
targets player 0 and passes `repeat = false` with the current elapsed
time (src/frontend/mod.rs:359-366). -/
def applyAxisAction (ps : Players) (elapsed : Rat) :
    AxisAction → Players
  | AxisAction.direcHorUp => key_direc_hor_up ps 0
  | AxisAction.direcVerUp => key_direc_ver_up ps 0
  | AxisAction.downAct key => key_down ps 0 key false elapsed
  | AxisAction.upAct key => key_up ps 0 key
  | AxisAction.noAct => ps

/-- The hotkey if-chain of the `KeyDown` arm
(src/frontend/mod.rs:304-326), as the engine calls it issues.
`recording` is the value `is_recording()` returned. -/
def hotkeyCalls (keycode : Keycode) (recording editor : Bool)
    (dt : DateTime) (scaleFactor : Nat) : List EngineCall :=
  if keycode = Keycode.F2 then [EngineCall.toggleInfoOverlay]
  else if keycode = Keycode.F3 then
    [EngineCall.screenshot ("screenshot-" ++ formatTimestamp dt ++ ".png")]
  else if keycode = Keycode.F4 then
    if ¬ recording then
      [EngineCall.startRecord ("record-" ++ formatTimestamp dt ++ ".gif")]
    else [EngineCall.stopRecord scaleFactor]
  else if keycode = Keycode.F5 then
    if editor then [EngineCall.saveCartridge (formatTimestamp dt)] else []
  else if keycode = Keycode.F6 ∧ editor then
    [EngineCall.switchCode, EngineCall.callInit]
  else []

/-- The effect of the hotkey chain on the engine state: F4 toggles the
recording flag (start_record / stop_record). -/
def hotkeyPx8 (keycode : Keycode) (e : Px8) : Px8 :=
  if keycode = Keycode.F4 then
    if ¬ e.is_recording then e.do_start_record else e.do_stop_record
  else e

/-- The `KeyDown` arm (src/frontend/mod.rs:299-332): `map_keycode` then
`key_down`, the hotkey chain, and finally the pause check
`get_value_quick(0, 7) == 1 → engine.pause()` on the updated players. -/
def handleKeyDown (s : Loop) (keycode : Keycode) (rpt : Bool) :
    Loop × List EngineCall :=
  let players :=
    match map_keycode keycode with
    | (some key, player) => key_down s.players player key rpt s.elapsed_time
    | (none, _) => s.players
  let hot := hotkeyCalls keycode s.px8.is_recording s.editor s.dt s.scaleFactor
  let px8a := hotkeyPx8 keycode s.px8
  let pauseNow := get_value_quick players 0 7 = 1
  ({ s with players := players,
            px8 := if pauseNow then px8a.pause else px8a },
   hot ++ if pauseNow then [EngineCall.pauseCall] else [])

/-- One event of the drain loop, for the arms that do not break
(src/frontend/mod.rs:296-390).  `Quit` and `KeyDown(Escape)` are
intercepted by `drainEvents` before this function runs. -/
def handleEvent (s : Loop) : Event → Loop × List EngineCall
  | Event.KeyDown (some keycode) rpt => handleKeyDown s keycode rpt
  | Event.KeyUp (some keycode) =>
    match map_keycode keycode with
    | (some key, player) =>
      ({ s with players := key_up s.players player key }, [])
    | (none, _) => (s, [])
  | Event.ControllerButtonDown button =>
    match map_button button with
    | some key =>
      ({ s with players := key_down s.players 0 key false s.elapsed_time }, [])
    | none => (s, [])
  | Event.ControllerButtonUp button =>
    match map_button button with
    | some key => ({ s with players := key_up s.players 0 key }, [])
    | none => (s, [])
  | Event.ControllerAxisMotion axis value =>
    ({ s with players :=
        applyAxisAction s.players s.elapsed_time (axisMotionAction axis value) },
     [])
  | _ => (s, [])

/-- The two event patterns that `break 'main` during the drain
(src/frontend/mod.rs:294-295): `Quit`, and `KeyDown` with keycode
`Escape` (any repeat flag). -/
def isQuitOrEscape : Event → Bool
  | Event.Quit => true
  | Event.KeyDown (some Keycode.Escape) _ => true
  | _ => false

/-- The event drain (src/frontend/mod.rs:292-391): events are handled
in order; `Quit` or `KeyDown(Escape)` breaks out immediately, leaving
later events unprocessed. -/
def drainEvents (s : Loop) : List Event → StepResult
  | [] => ⟨s, [], false⟩
  | e :: rest =>
    if isQuitOrEscape e then ⟨s, [], true⟩
    else
      let r := drainEvents (handleEvent s e).1 rest
      ⟨r.loop, (handleEvent s e).2 ++ r.calls, r.exit⟩

/-- The engine tick (src/frontend/mod.rs:393-417): in PAUSE, read the
menu slots and run `update_pause` and `update`; in RUN, break if
`is_end()`, else `call_update`, `call_draw`, `update`, and `record()`
when recording. -/
def engineTick (s : Loop) : StepResult :=
  match s.px8.state with
  | PX8State.PAUSE =>
    let up := get_value_quick s.players 0 2 = 1
    let down := get_value_quick s.players 0 3 = 1
    let enter := get_value_quick s.players 0 6 = 1
    ⟨{ s with px8 := s.px8.update_pause (decide enter) (decide up) (decide down) },
     [EngineCall.updatePauseCall, EngineCall.engineUpdateCall], false⟩
  | PX8State.RUN =>
    if s.px8.is_end then ⟨s, [], true⟩
    else
      ⟨s,
       [EngineCall.callUpdate, EngineCall.callDraw, EngineCall.engineUpdateCall] ++
         if s.px8.is_recording then [EngineCall.recordCall] else [],
       false⟩

/-- One iteration of the `'main` loop after the clock/mouse reads: the
event drain, then (unless a break was requested) the engine tick.
`exit = true` means `break 'main`; there is no error outcome — Quit and
Escape are normal termination. -/
def frameBody (s : Loop) (events : List Event) : StepResult :=
  if (drainEvents s events).exit then drainEvents s events
  else
    ⟨(engineTick (drainEvents s events).loop).loop,
     (drainEvents s events).calls ++
       (engineTick (drainEvents s events).loop).calls,
     (engineTick (drainEvents s events).loop).exit⟩

/-- The mouse rescale the code performs
(src/frontend/mod.rs:282-283): `raw / (dim / screen_dim)` in `i32`
arithmetic, whose `/` truncates toward zero (`Int.tdiv`). -/
def mouseRescale (raw dim screenDim : Int) : Int :=
  raw.tdiv (dim.tdiv screenDim)

/-- The rescale formula as the spec words it:
`raw * SCREEN_DIM / dim`. -/
def specMouseRescale (raw dim screenDim : Int) : Int :=
  (raw * screenDim).tdiv dim

/-- Modelled from the spec: `Players::set_mouse_x` — store a rescaled
mouse x coordinate into the PlayersState mouse fields. -/
def set_mouse_x (m : Mouse) (x : Int) : Mouse := { m with mx := x }

/-- Modelled from the spec: `Players::set_mouse_y`. -/
def set_mouse_y (m : Mouse) (y : Int) : Mouse := { m with my := y }

/-- Modelled from the spec: `Players::set_mouse_state` — store the
platform mouse buttons as a bitmask. -/
def set_mouse_state (m : Mouse) (b : Nat) : Mouse := { m with buttons := b }

/-- The per-frame mouse read (src/frontend/mod.rs:279-284), which runs
before the event drain: read the current mouse position `(rawX, rawY)`
and button bitmask from the event subsystem, then
`set_mouse_x(rawX / (width / SCREEN_WIDTH))`,
`set_mouse_y(rawY / (height / SCREEN_HEIGHT))`, `set_mouse_state`. -/
def storeMouse (s : Loop) (rawX rawY : Int) (buttons : Nat)
    (width height screenW screenH : Int) : Loop :=
  { s with
      mouse :=
        set_mouse_state
          (set_mouse_y
            (set_mouse_x s.mouse (mouseRescale rawX width screenW))
            (mouseRescale rawY height screenH))
          buttons }

/-- One full iteration of the `'main` loop body after the clock and FPS
reads (src/frontend/mod.rs:279-421): first the mouse store, then the
event drain and the engine tick on the stored state. -/
def loopIteration (s : Loop) (rawX rawY : Int) (buttons : Nat)
    (width height screenW screenH : Int) (events : List Event) :
    StepResult :=
  frameBody (storeMouse s rawX rawY buttons width height screenW screenH)
    events

/-! ## Claim theorems -/

/-- C1: `FrameTimes::update` returns `now - last_time`, sets
`last_time` to `now`, and advances `target_time` by exactly
`frame_duration` without clamping to `now`; hence after `K` updates the
target equals the initial target plus `K * frame_duration`, regardless
of the observation times. -/
theorem frameclock_update_spec (ft : FrameTimes) (now : Nat)
    (nows : List Nat) :
    (ft.update now).2 = now - ft.last_time ∧
    (ft.update now).1.last_time = now ∧
    (ft.update now).1.frame_duration = ft.frame_duration ∧
    (ft.update now).1.target_time = ft.target_time + ft.frame_duration ∧
    (ft.updateMany nows).target_time =
      ft.target_time + nows.length * ft.frame_duration := by
  refine ⟨rfl, rfl, rfl, rfl, ?_⟩
  induction nows generalizing ft with
  | nil => simp [FrameTimes.updateMany]
  | cons n rest ih =>
    simp only [FrameTimes.updateMany, FrameTimes.update, List.length_cons]
    rw [ih]
    ring

/-- C2: the `map_axis` quantization table on `LeftX` (Left/Right) and
`LeftY` (Up/Down), its band boundaries, that no value produces both a
Left and a Right result (nor both Up and Down), and that every axis
other than `LeftX`/`LeftY` maps to `none`. -/
theorem map_axis_table_spec :
    (∀ v : Int, -32768 ≤ v → v ≤ -16384 →
      map_axis Axis.LeftX v = some (PX8Key.Left, true)) ∧
    (∀ v : Int, -16384 < v → v < 0 →
      map_axis Axis.LeftX v = some (PX8Key.Left, false)) ∧
    (∀ v : Int, 0 ≤ v → v < 16384 →
      map_axis Axis.LeftX v = some (PX8Key.Right, false)) ∧
    (∀ v : Int, 16384 ≤ v → v ≤ 32767 →
      map_axis Axis.LeftX v = some (PX8Key.Right, true)) ∧
    (∀ v : Int, -32768 ≤ v → v ≤ -16384 →
      map_axis Axis.LeftY v = some (PX8Key.Up, true)) ∧
    (∀ v : Int, -16384 < v → v < 0 →
      map_axis Axis.LeftY v = some (PX8Key.Up, false)) ∧
    (∀ v : Int, 0 ≤ v → v < 16384 →
      map_axis Axis.LeftY v = some (PX8Key.Down, false)) ∧
    (∀ v : Int, 16384 ≤ v → v ≤ 32767 →
      map_axis Axis.LeftY v = some (PX8Key.Down, true)) ∧
    (∀ (v : Int) (b1 b2 : Bool),
      ¬ (map_axis Axis.LeftX v = some (PX8Key.Left, b1) ∧
         map_axis Axis.LeftX v = some (PX8Key.Right, b2))) ∧
    (∀ (v : Int) (b1 b2 : Bool),
      ¬ (map_axis Axis.LeftY v = some (PX8Key.Up, b1) ∧
         map_axis Axis.LeftY v = some (PX8Key.Down, b2))) ∧
    (∀ axis : Axis, axis ≠ Axis.LeftX → axis ≠ Axis.LeftY →
      ∀ v : Int, map_axis axis v = none) := by
  refine ⟨?_, ?_, ?_, ?_, ?_, ?_, ?_, ?_, ?_, ?_, ?_⟩
  · intro v h1 h2
    simp only [map_axis]
    split_ifs <;> first | rfl | omega
  · intro v h1 h2
    simp only [map_axis]
    split_ifs <;> first | rfl | omega
  · intro v h1 h2
    simp only [map_axis]
    split_ifs <;> first | rfl | omega
  · intro v h1 h2
    simp only [map_axis]
    split_ifs <;> first | rfl | omega
  · intro v h1 h2
    simp only [map_axis]
    split_ifs <;> first | rfl | omega
  · intro v h1 h2
    simp only [map_axis]
    split_ifs <;> first | rfl | omega
  · intro v h1 h2
    simp only [map_axis]
    split_ifs <;> first | rfl | omega
  · intro v h1 h2
    simp only [map_axis]
    split_ifs <;> first | rfl | omega
  · intro v b1 b2 h
    have h2 := h.1.symm.trans h.2
    simp at h2
  · intro v b1 b2 h
    have h2 := h.1.symm.trans h.2
    simp at h2
  · intro axis hx hy v
    cases axis with
    | LeftX => exact absurd rfl hx
    | LeftY => exact absurd rfl hy
    | RightX => rfl
    | RightY => rfl
    | TriggerLeft => rfl
    | TriggerRight => rfl

/-- Witness for C2: the table evaluated at concrete axis values. -/
theorem map_axis_table_spec_witness :
    map_axis Axis.LeftX (-20000) = some (PX8Key.Left, true) ∧
    map_axis Axis.LeftX (-1) = some (PX8Key.Left, false) ∧
    map_axis Axis.LeftX 100 = some (PX8Key.Right, false) ∧
    map_axis Axis.LeftX 20000 = some (PX8Key.Right, true) ∧
    map_axis Axis.LeftY (-20000) = some (PX8Key.Up, true) ∧
    map_axis Axis.LeftY 20000 = some (PX8Key.Down, true) ∧
    map_axis Axis.RightX 5 = none := by
  obtain ⟨h1, h2, h3, h4, h5, h6, h7, h8, h9, h10, h11⟩ := map_axis_table_spec
  exact ⟨h1 (-20000) (by decide) (by decide),
         h2 (-1) (by decide) (by decide),
         h3 100 (by decide) (by decide),
         h4 20000 (by decide) (by decide),
         h5 (-20000) (by decide) (by decide),
         h8 20000 (by decide) (by decide),
         h11 Axis.RightX (by decide) (by decide) 5⟩

/-- C4: `map_keycode` implements exactly the fixed two-player table;
every other keycode yields `(none, 0)`, and the function is pure, so
repeated calls agree. -/
theorem map_keycode_table_spec :
    map_keycode Keycode.Right = (some PX8Key.Right, 0) ∧
    map_keycode Keycode.Left = (some PX8Key.Left, 0) ∧
    map_keycode Keycode.Up = (some PX8Key.Up, 0) ∧
    map_keycode Keycode.Down = (some PX8Key.Down, 0) ∧
    map_keycode Keycode.Z = (some PX8Key.O, 0) ∧
    map_keycode Keycode.C = (some PX8Key.O, 0) ∧
    map_keycode Keycode.N = (some PX8Key.O, 0) ∧
    map_keycode Keycode.X = (some PX8Key.X, 0) ∧
    map_keycode Keycode.V = (some PX8Key.X, 0) ∧
    map_keycode Keycode.M = (some PX8Key.X, 0) ∧
    map_keycode Keycode.P = (some PX8Key.Pause, 0) ∧
    map_keycode Keycode.KpEnter = (some PX8Key.Enter, 0) ∧
    map_keycode Keycode.F = (some PX8Key.Right, 1) ∧
    map_keycode Keycode.S = (some PX8Key.Left, 1) ∧
    map_keycode Keycode.E = (some PX8Key.Up, 1) ∧
    map_keycode Keycode.D = (some PX8Key.Down, 1) ∧
    map_keycode Keycode.LShift = (some PX8Key.O, 1) ∧
    map_keycode Keycode.Tab = (some PX8Key.O, 1) ∧
    map_keycode Keycode.A = (some PX8Key.X, 1) ∧
    map_keycode Keycode.Q = (some PX8Key.X, 1) ∧
    map_keycode Keycode.Escape = (none, 0) ∧
    map_keycode Keycode.F2 = (none, 0) ∧
    map_keycode Keycode.F3 = (none, 0) ∧
    map_keycode Keycode.F4 = (none, 0) ∧
    map_keycode Keycode.F5 = (none, 0) ∧
    map_keycode Keycode.F6 = (none, 0) ∧
    (∀ n : Nat, map_keycode (Keycode.Other n) = (none, 0)) ∧
    (∀ k : Keycode, map_keycode k = map_keycode k) :=
  ⟨rfl, rfl, rfl, rfl, rfl, rfl, rfl, rfl, rfl, rfl, rfl, rfl, rfl, rfl,
   rfl, rfl, rfl, rfl, rfl, rfl, rfl, rfl, rfl, rfl, rfl, rfl,
   fun _ => rfl, fun _ => rfl⟩

/-- C9: on `LeftX` and `LeftY` the bands cover the whole `i16` range,
so `map_axis` returns `some` for every value and its final `none` arm
is unreachable; in particular the centered value 0 is still reported as
a soft press: `(Right, false)` on `LeftX` and `(Down, false)` on
`LeftY`. -/
theorem map_axis_total_spec (v : Int) (h1 : -32768 ≤ v)
    (h2 : v ≤ 32767) :
    (map_axis Axis.LeftX v).isSome = true ∧
    (map_axis Axis.LeftY v).isSome = true ∧
    map_axis Axis.LeftX 0 = some (PX8Key.Right, false) ∧
    map_axis Axis.LeftY 0 = some (PX8Key.Down, false) := by
  refine ⟨?_, ?_, by decide, by decide⟩
  · simp only [map_axis]
    split_ifs <;> first | rfl | omega
  · simp only [map_axis]
    split_ifs <;> first | rfl | omega

/-- Witness for C9: totality and center behaviour at `v = 0`. -/
theorem map_axis_total_spec_witness :
    (map_axis Axis.LeftX 0).isSome = true ∧
    (map_axis Axis.LeftY 0).isSome = true ∧
    map_axis Axis.LeftX 0 = some (PX8Key.Right, false) ∧
    map_axis Axis.LeftY 0 = some (PX8Key.Down, false) :=
  map_axis_total_spec 0 (by decide) (by decide)

/-- C8 counterexample: the code's rescale `raw / (dim / screen_dim)`
disagrees with the claimed `raw * SCREEN_WIDTH / window.width` at
`raw.x = 300`, `window.width = 500`, `SCREEN_WIDTH = 128`: the code
stores `300 / (500 / 128) = 100` while the claim demands
`300 * 128 / 500 = 76`. -/
theorem mouse_rescale_counterexample :
    mouseRescale 300 500 128 ≠ specMouseRescale 300 500 128 := by
  decide

theorem handleKeyDown_mouse (s : Loop) (k : Keycode) (rpt : Bool) :
    (handleKeyDown s k rpt).1.mouse = s.mouse := rfl

theorem handleEvent_mouse (s : Loop) (e : Event) :
    (handleEvent s e).1.mouse = s.mouse := by
  cases e with
  | Quit => rfl
  | KeyDown kc rpt =>
    cases kc with
    | none => rfl
    | some k => exact handleKeyDown_mouse s k rpt
  | KeyUp kc =>
    cases kc with
    | none => rfl
    | some k =>
      rcases hmk : map_keycode k with ⟨ok, player⟩
      cases ok <;> simp [handleEvent, hmk]
  | WindowSizeChanged => rfl
  | ControllerDeviceAdded => rfl
  | ControllerButtonDown b =>
    rcases hmb : map_button b with _ | key <;> simp [handleEvent, hmb]
  | ControllerButtonUp b =>
    rcases hmb : map_button b with _ | key <;> simp [handleEvent, hmb]
  | ControllerAxisMotion a v => rfl
  | JoyAxisMotion => rfl
  | JoyButtonDown => rfl
  | JoyButtonUp => rfl
  | JoyHatMotion => rfl
  | OtherEvent => rfl

theorem drainEvents_mouse (s : Loop) (events : List Event) :
    (drainEvents s events).loop.mouse = s.mouse := by
  induction events generalizing s with
  | nil => rfl
  | cons e rest ih =>
    simp only [drainEvents]
    split
    · rfl
    · show (drainEvents (handleEvent s e).1 rest).loop.mouse = s.mouse
      rw [ih, handleEvent_mouse]

theorem engineTick_mouse (t : Loop) :
    (engineTick t).loop.mouse = t.mouse := by
  cases ht : t.px8.state with
  | PAUSE => simp [engineTick, ht]
  | RUN =>
    simp only [engineTick, ht]
    split <;> rfl

theorem frameBody_mouse (s : Loop) (events : List Event) :
    (frameBody s events).loop.mouse = s.mouse := by
  unfold frameBody
  split
  · exact drainEvents_mouse s events
  · show (engineTick (drainEvents s events).loop).loop.mouse = s.mouse
    rw [engineTick_mouse, drainEvents_mouse]

/-- C8 (amended): each frame, before the event drain, the front-end
reads the current mouse position from the event subsystem and stores
into PlayersState the rescaled coordinates
`mx = raw.x / (window.width / SCREEN_WIDTH)` and
`my = raw.y / (window.height / SCREEN_HEIGHT)` (truncating `i32`
division), together with the mouse buttons as a bitmask: the loop
iteration runs the event drain and the engine tick on the stored
state, and since no event handler or tick writes the mouse fields,
those fields hold exactly the rescaled coordinates and the bitmask
both at the store and still at the end of the frame. -/
theorem mouse_rescale_amended (s : Loop) (rawX rawY : Int)
    (buttons : Nat) (width height screenW screenH : Int)
    (events : List Event) :
    (storeMouse s rawX rawY buttons width height screenW screenH).mouse =
      ⟨mouseRescale rawX width screenW, mouseRescale rawY height screenH,
       buttons⟩ ∧
    loopIteration s rawX rawY buttons width height screenW screenH events =
      frameBody (storeMouse s rawX rawY buttons width height screenW screenH)
        events ∧
    (loopIteration s rawX rawY buttons width height screenW screenH
        events).loop.mouse =
      ⟨mouseRescale rawX width screenW, mouseRescale rawY height screenH,
       buttons⟩ := by
  refine ⟨rfl, rfl, ?_⟩
  unfold loopIteration
  rw [frameBody_mouse]
  rfl

/-- C3: the `ControllerAxisMotion` arm sends `LeftX = 128` to
`key_direc_hor_up(0)` (clearing both Left and Right for player 0) and
`LeftY = -129` to `key_direc_ver_up(0)` instead of key_down/key_up;
every other mapped (axis, value) goes to `key_down(0, key, false,
elapsed_time)` when the strong-press flag is true and to
`key_up(0, key)` when it is false. -/
theorem axis_motion_dispatch :
    axisMotionAction Axis.LeftX 128 = AxisAction.direcHorUp ∧
    axisMotionAction Axis.LeftY (-129) = AxisAction.direcVerUp ∧
    (∀ (ps : Players) (t : Rat),
      applyAxisAction ps t AxisAction.direcHorUp = key_direc_hor_up ps 0) ∧
    (∀ (ps : Players) (t : Rat),
      applyAxisAction ps t AxisAction.direcVerUp = key_direc_ver_up ps 0) ∧
    (∀ (ps : Players) (t : Rat),
      get_value_quick (applyAxisAction ps t AxisAction.direcHorUp) 0 0 = 0 ∧
      get_value_quick (applyAxisAction ps t AxisAction.direcHorUp) 0 1 = 0) ∧
    (∀ (axis : Axis) (v : Int) (key : PX8Key) (st : Bool),
      map_axis axis v = some (key, st) →
      ¬ (axis = Axis.LeftX ∧ v = 128) →
      ¬ (axis = Axis.LeftY ∧ v = -129) →
      axisMotionAction axis v =
        if st then AxisAction.downAct key else AxisAction.upAct key) ∧
    (∀ (ps : Players) (t : Rat) (key : PX8Key),
      applyAxisAction ps t (AxisAction.downAct key) =
        key_down ps 0 key false t) ∧
    (∀ (ps : Players) (t : Rat) (key : PX8Key),
      applyAxisAction ps t (AxisAction.upAct key) = key_up ps 0 key) := by
  refine ⟨by decide, by decide, fun _ _ => rfl, fun _ _ => rfl, ?_, ?_,
    fun _ _ _ => rfl, fun _ _ _ => rfl⟩
  · intro ps t
    constructor <;>
      simp [applyAxisAction, key_direc_hor_up, key_up, get_value_quick,
        slotKey]
  · intro axis v key st hmap hx hy
    simp only [axisMotionAction, hmap]
    rw [if_neg hx, if_neg hy]

/-- Witness for C3: `LeftX = 30000` maps to a strong Right press, so
the dispatch selects `key_down` with the Right key. -/
theorem axis_motion_dispatch_witness :
    axisMotionAction Axis.LeftX 30000 = AxisAction.downAct PX8Key.Right := by
  have h := axis_motion_dispatch.2.2.2.2.2.1 Axis.LeftX 30000 PX8Key.Right
    true (by decide) (by decide) (by decide)
  simpa using h

/-- A concrete wall-clock instant for witnesses. -/
def sampleDT : DateTime := ⟨2024, 1, 2, 3, 4, 5⟩

/-- A concrete loop state for witnesses: nothing pressed, engine
running, not recording, not ended. -/
def sampleLoop : Loop :=
  { players := Players.init
    px8 := ⟨PX8State.RUN, false, false⟩
    elapsed_time := 0
    editor := false
    scaleFactor := 4
    dt := sampleDT }

/-- C7: on `KeyDown(F4)`, if `is_recording()` returned false the
front-end calls `start_record` on `"record-" ++ <local wall clock as
YYYY-MM-DD-HH-MM-SS> ++ ".gif"` and never `stop_record`; if it returned
true, it calls `stop_record(scale_factor)` and never `start_record`. -/
theorem f4_record_toggle (s : Loop) (rpt : Bool) :
    (s.px8.is_recording = false →
      EngineCall.startRecord ("record-" ++ formatTimestamp s.dt ++ ".gif")
        ∈ (handleKeyDown s Keycode.F4 rpt).2 ∧
      (∀ sc : Nat,
        EngineCall.stopRecord sc ∉ (handleKeyDown s Keycode.F4 rpt).2)) ∧
    (s.px8.is_recording = true →
      EngineCall.stopRecord s.scaleFactor
        ∈ (handleKeyDown s Keycode.F4 rpt).2 ∧
      (∀ f : String,
        EngineCall.startRecord f ∉ (handleKeyDown s Keycode.F4 rpt).2)) := by
  constructor
  · intro hrec
    constructor
    · simp [handleKeyDown, hotkeyCalls, hrec]
    · intro sc
      simp [handleKeyDown, hotkeyCalls, hrec]
  · intro hrec
    constructor
    · simp [handleKeyDown, hotkeyCalls, hrec]
    · intro f
      simp [handleKeyDown, hotkeyCalls, hrec]

/-- Witness for C7: with the engine not recording, F4 starts a
recording named from the sample timestamp. -/
theorem f4_record_toggle_witness :
    EngineCall.startRecord ("record-" ++ formatTimestamp sampleDT ++ ".gif")
      ∈ (handleKeyDown sampleLoop Keycode.F4 false).2 ∧
    (∀ sc : Nat,
      EngineCall.stopRecord sc ∉ (handleKeyDown sampleLoop Keycode.F4 false).2) :=
  (f4_record_toggle sampleLoop false).1 rfl

theorem key_down_pressed (ps : Players) (p : Nat) (k : PX8Key) (rpt : Bool)
    (t : Rat) : ((key_down ps p k rpt t) p k).pressed = true := by
  simp only [key_down]
  split
  · split
    · rfl
    · rename_i h
      push_neg at h
      exact h.1
  · rename_i h
    simp at h

theorem key_down_mono (ps : Players) (p : Nat) (k : PX8Key) (rpt : Bool)
    (t : Rat) (q : Nat) (j : PX8Key) (h : (ps q j).pressed = true) :
    ((key_down ps p k rpt t) q j).pressed = true := by
  simp only [key_down]
  split
  · split
    · rfl
    · exact h
  · exact h

theorem key_down_other (ps : Players) (p : Nat) (k : PX8Key) (rpt : Bool)
    (t : Rat) (q : Nat) (j : PX8Key) (h : ¬ (q = p ∧ j = k)) :
    (key_down ps p k rpt t) q j = ps q j := by
  simp only [key_down]
  rw [if_neg h]

theorem handleKeyDown_pause_mem (s : Loop) (k : Keycode) (rpt : Bool)
    (h : (s.players 0 PX8Key.Pause).pressed = true) :
    EngineCall.pauseCall ∈ (handleKeyDown s k rpt).2 := by
  rcases hmk : map_keycode k with ⟨ok, player⟩
  cases ok with
  | none =>
    have hp : get_value_quick s.players 0 7 = 1 := by
      simp [get_value_quick, slotKey, h]
    simp [handleKeyDown, hmk, hp]
  | some key =>
    have hp : get_value_quick
        (key_down s.players player key rpt s.elapsed_time) 0 7 = 1 := by
      simp [get_value_quick, slotKey,
        key_down_mono s.players player key rpt s.elapsed_time 0 PX8Key.Pause h]
    simp [handleKeyDown, hmk, hp]

/-- C10: the pause check sits at the end of every `KeyDown` arm, not
only for P: if a `KeyDown` event with any non-Escape keycode is drained
while player-0 slot 7 (Pause) reads 1, `engine.pause()` is invoked
again during that event's handling. -/
theorem pause_check_every_keydown (s : Loop) (k : Keycode) (rpt : Bool)
    (rest : List Event) (hk : k ≠ Keycode.Escape)
    (h : get_value_quick s.players 0 7 = 1) :
    EngineCall.pauseCall ∈
      (drainEvents s (Event.KeyDown (some k) rpt :: rest)).calls := by
  have hq : isQuitOrEscape (Event.KeyDown (some k) rpt) = false := by
    cases k <;> first | rfl | exact absurd rfl hk
  have hpress : (s.players 0 PX8Key.Pause).pressed = true := by
    cases hb : (s.players 0 PX8Key.Pause).pressed
    · simp [get_value_quick, slotKey, hb] at h
    · rfl
  have hmem := handleKeyDown_pause_mem s k rpt hpress
  simp only [drainEvents, hq, Bool.false_eq_true, if_false]
  exact List.mem_append.mpr (Or.inl hmem)

/-- Witness for C10: with P already held (pause slot pressed), draining
a `KeyDown(Z)` invokes `pause()` again. -/
theorem pause_check_every_keydown_witness :
    EngineCall.pauseCall ∈
      (drainEvents
        { sampleLoop with
            players := key_down Players.init 0 PX8Key.Pause false 0 }
        [Event.KeyDown (some Keycode.Z) false]).calls :=
  pause_check_every_keydown _ Keycode.Z false [] (by decide)
    (by simp [get_value_quick, slotKey, key_down_pressed])

/-- C5: during event handling, a `KeyDown` after which player-0 slot 7
(Pause) reads 1 makes the front-end invoke `engine.pause()`; a single
`KeyDown(P)` produces exactly one `pause()` call, and when nothing else
is pressed the engine state is PAUSE at the end of the frame, i.e. no
later than the start of the next frame. -/
theorem keydown_p_pause (s : Loop) (rpt : Bool)
    (h6 : get_value_quick s.players 0 6 = 0) :
    (∀ (k : Keycode) (r2 : Bool),
      get_value_quick (handleKeyDown s k r2).1.players 0 7 = 1 →
      EngineCall.pauseCall ∈ (handleKeyDown s k r2).2) ∧
    (handleKeyDown s Keycode.P rpt).2.count EngineCall.pauseCall = 1 ∧
    (handleKeyDown s Keycode.P rpt).1.px8.state = PX8State.PAUSE ∧
    (frameBody s [Event.KeyDown (some Keycode.P) rpt]).loop.px8.state =
      PX8State.PAUSE := by
  have hp : get_value_quick
      (key_down s.players 0 PX8Key.Pause rpt s.elapsed_time) 0 7 = 1 := by
    simp [get_value_quick, slotKey, key_down_pressed]
  have henter : get_value_quick
      (key_down s.players 0 PX8Key.Pause rpt s.elapsed_time) 0 6 = 0 := by
    have hne : (key_down s.players 0 PX8Key.Pause rpt s.elapsed_time) 0
        PX8Key.Enter = s.players 0 PX8Key.Enter :=
      key_down_other _ _ _ _ _ 0 PX8Key.Enter (by simp)
    simpa [get_value_quick, slotKey, hne] using h6
  refine ⟨?_, ?_, ?_, ?_⟩
  · intro k r2 hpk
    rcases hmk : map_keycode k with ⟨ok, player⟩
    cases ok with
    | none =>
      simp only [handleKeyDown, hmk] at hpk ⊢
      simp [hpk]
    | some key =>
      simp only [handleKeyDown, hmk] at hpk ⊢
      simp [hpk]
  · simp [handleKeyDown, hotkeyCalls, hp, map_keycode]
  · simp [handleKeyDown, hotkeyCalls, hotkeyPx8, hp, map_keycode, Px8.pause]
  · have hstate : (handleKeyDown s Keycode.P rpt).1.px8.state =
        PX8State.PAUSE := by
      simp [handleKeyDown, hotkeyCalls, hotkeyPx8, hp, map_keycode, Px8.pause]
    simp only [frameBody, drainEvents, isQuitOrEscape]
    simp only [handleEvent]
    simp [engineTick, hstate, Px8.update_pause, henter,
      handleKeyDown, map_keycode, hp, hotkeyPx8, Px8.pause]

/-- Witness for C5: pressing P from the all-released sample state. -/
theorem keydown_p_pause_witness :
    (handleKeyDown sampleLoop Keycode.P false).2.count EngineCall.pauseCall
        = 1 ∧
    (frameBody sampleLoop [Event.KeyDown (some Keycode.P) false]).loop.px8.state
        = PX8State.PAUSE :=
  ⟨(keydown_p_pause sampleLoop false (by decide)).2.1,
   (keydown_p_pause sampleLoop false (by decide)).2.2.2⟩

theorem hotkeyPx8_ended (k : Keycode) (e : Px8) :
    (hotkeyPx8 k e).ended = e.ended := by
  simp only [hotkeyPx8, Px8.do_start_record, Px8.do_stop_record]
  split_ifs <;> rfl

theorem handleKeyDown_ended (s : Loop) (k : Keycode) (rpt : Bool) :
    (handleKeyDown s k rpt).1.px8.ended = s.px8.ended := by
  simp only [handleKeyDown]
  split_ifs <;> simp [Px8.pause, hotkeyPx8_ended]

theorem handleEvent_ended (s : Loop) (e : Event) :
    (handleEvent s e).1.px8.ended = s.px8.ended := by
  cases e with
  | Quit => rfl
  | KeyDown kc rpt =>
    cases kc with
    | none => rfl
    | some k => exact handleKeyDown_ended s k rpt
  | KeyUp kc =>
    cases kc with
    | none => rfl
    | some k =>
      rcases hmk : map_keycode k with ⟨ok, player⟩
      cases ok <;> simp [handleEvent, hmk]
  | WindowSizeChanged => rfl
  | ControllerDeviceAdded => rfl
  | ControllerButtonDown b =>
    rcases hmb : map_button b with _ | key <;> simp [handleEvent, hmb]
  | ControllerButtonUp b =>
    rcases hmb : map_button b with _ | key <;> simp [handleEvent, hmb]
  | ControllerAxisMotion a v => rfl
  | JoyAxisMotion => rfl
  | JoyButtonDown => rfl
  | JoyButtonUp => rfl
  | JoyHatMotion => rfl
  | OtherEvent => rfl

theorem drainEvents_ended (s : Loop) (events : List Event) :
    (drainEvents s events).loop.px8.ended = s.px8.ended := by
  induction events generalizing s with
  | nil => rfl
  | cons e rest ih =>
    simp only [drainEvents]
    split
    · rfl
    · show (drainEvents (handleEvent s e).1 rest).loop.px8.ended =
        s.px8.ended
      rw [ih, handleEvent_ended]

theorem drainEvents_exit (s : Loop) (events : List Event) :
    (drainEvents s events).exit = events.any isQuitOrEscape := by
  induction events generalizing s with
  | nil => rfl
  | cons e rest ih =>
    simp only [drainEvents, List.any_cons]
    split
    · rename_i h
      simp [h]
    · rename_i h
      simp only [Bool.not_eq_true] at h
      show (drainEvents (handleEvent s e).1 rest).exit = _
      simp [ih, h]

theorem hotkeyCalls_no_tick (k : Keycode) (r2 e2 : Bool) (dt : DateTime)
    (sf : Nat) :
    EngineCall.callUpdate ∉ hotkeyCalls k r2 e2 dt sf ∧
    EngineCall.callDraw ∉ hotkeyCalls k r2 e2 dt sf := by
  unfold hotkeyCalls
  split_ifs <;> simp

theorem handleKeyDown_no_tick (s : Loop) (k : Keycode) (rpt : Bool) :
    EngineCall.callUpdate ∉ (handleKeyDown s k rpt).2 ∧
    EngineCall.callDraw ∉ (handleKeyDown s k rpt).2 := by
  have h := hotkeyCalls_no_tick k s.px8.is_recording s.editor s.dt
    s.scaleFactor
  simp only [handleKeyDown, List.mem_append, not_or]
  constructor
  · exact ⟨h.1, by split <;> simp⟩
  · exact ⟨h.2, by split <;> simp⟩

theorem handleEvent_no_tick (s : Loop) (e : Event) :
    EngineCall.callUpdate ∉ (handleEvent s e).2 ∧
    EngineCall.callDraw ∉ (handleEvent s e).2 := by
  cases e with
  | Quit => simp [handleEvent]
  | KeyDown kc rpt =>
    cases kc with
    | none => simp [handleEvent]
    | some k => exact handleKeyDown_no_tick s k rpt
  | KeyUp kc =>
    cases kc with
    | none => simp [handleEvent]
    | some k =>
      rcases hmk : map_keycode k with ⟨ok, player⟩
      cases ok <;> simp [handleEvent, hmk]
  | WindowSizeChanged => simp [handleEvent]
  | ControllerDeviceAdded => simp [handleEvent]
  | ControllerButtonDown b =>
    rcases hmb : map_button b with _ | key <;> simp [handleEvent, hmb]
  | ControllerButtonUp b =>
    rcases hmb : map_button b with _ | key <;> simp [handleEvent, hmb]
  | ControllerAxisMotion a v => simp [handleEvent]
  | JoyAxisMotion => simp [handleEvent]
  | JoyButtonDown => simp [handleEvent]
  | JoyButtonUp => simp [handleEvent]
  | JoyHatMotion => simp [handleEvent]
  | OtherEvent => simp [handleEvent]

theorem drainEvents_no_tick (s : Loop) (events : List Event) :
    EngineCall.callUpdate ∉ (drainEvents s events).calls ∧
    EngineCall.callDraw ∉ (drainEvents s events).calls := by
  induction events generalizing s with
  | nil => simp [drainEvents]
  | cons e rest ih =>
    simp only [drainEvents]
    split
    · simp
    · have h1 := handleEvent_no_tick s e
      have h2 := ih (handleEvent s e).1
      constructor
      · show EngineCall.callUpdate ∉
          (handleEvent s e).2 ++ (drainEvents (handleEvent s e).1 rest).calls
        simp [List.mem_append, h1.1, h2.1]
      · show EngineCall.callDraw ∉
          (handleEvent s e).2 ++ (drainEvents (handleEvent s e).1 rest).calls
        simp [List.mem_append, h1.2, h2.2]

theorem engineTick_exit (t : Loop) :
    ((engineTick t).exit = true ↔
      t.px8.state = PX8State.RUN ∧ t.px8.ended = true) ∧
    (t.px8.state = PX8State.RUN → t.px8.ended = true →
      (engineTick t).calls = []) := by
  cases ht : t.px8.state with
  | PAUSE =>
    constructor
    · simp [engineTick, ht]
    · intro h
      simp [ht] at h
  | RUN =>
    cases he : t.px8.ended
    · constructor
      · simp [engineTick, ht, Px8.is_end, he]
      · intro _ h2
        simp [he] at h2
    · constructor
      · simp [engineTick, ht, Px8.is_end, he]
      · intro _ _
        simp [engineTick, ht, Px8.is_end, he]

/-- C6: one iteration of the `'main` loop requests termination exactly
when a Quit event is drained, a `KeyDown(Escape)` is drained, or the
engine state at the tick is RUN and `is_end()` holds; in the `is_end()`
case neither `call_update` nor `call_draw` runs that frame.  The exit
outcome is an ordinary boolean — Quit and Escape are normal
termination, not errors. -/
theorem main_loop_exit_iff (s : Loop) (events : List Event) :
    ((frameBody s events).exit = true ↔
      events.any isQuitOrEscape = true ∨
        (events.any isQuitOrEscape = false ∧
         (drainEvents s events).loop.px8.state = PX8State.RUN ∧
         s.px8.ended = true)) ∧
    (events.any isQuitOrEscape = false →
     (drainEvents s events).loop.px8.state = PX8State.RUN →
     s.px8.ended = true →
     EngineCall.callUpdate ∉ (frameBody s events).calls ∧
     EngineCall.callDraw ∉ (frameBody s events).calls) := by
  have hex := drainEvents_exit s events
  have hend := drainEvents_ended s events
  constructor
  · unfold frameBody
    split
    · rename_i h
      have ha : events.any isQuitOrEscape = true := hex ▸ h
      simp [h, ha]
    · rename_i h
      simp only [Bool.not_eq_true] at h
      have ha : events.any isQuitOrEscape = false := hex ▸ h
      show (engineTick (drainEvents s events).loop).exit = true ↔ _
      rw [(engineTick_exit (drainEvents s events).loop).1, hend]
      simp [ha]
  · intro ha hrun hend2
    unfold frameBody
    split
    · rename_i h
      rw [hex, ha] at h
      exact absurd h (by simp)
    · have ht := (engineTick_exit (drainEvents s events).loop).2 hrun
        (hend.trans hend2)
      constructor
      · show EngineCall.callUpdate ∉
          (drainEvents s events).calls ++
            (engineTick (drainEvents s events).loop).calls
        rw [ht]
        simpa using (drainEvents_no_tick s events).1
      · show EngineCall.callDraw ∉
          (drainEvents s events).calls ++
            (engineTick (drainEvents s events).loop).calls
        rw [ht]
        simpa using (drainEvents_no_tick s events).2

/-- A loop state whose engine has requested shutdown, for the C6
witness. -/
def endedLoop : Loop :=
  { players := Players.init
    px8 := ⟨PX8State.RUN, false, true⟩
    elapsed_time := 0
    editor := false
    scaleFactor := 4
    dt := sampleDT }

/-- Witness for C6: with `is_end()` already set and no events, the
frame exits without running `call_update` or `call_draw`. -/
theorem main_loop_exit_iff_witness :
    EngineCall.callUpdate ∉ (frameBody endedLoop []).calls ∧
    EngineCall.callDraw ∉ (frameBody endedLoop []).calls :=
  (main_loop_exit_iff endedLoop []).2 rfl rfl rfl
